import Mathlib

/-!
Verification of the analysis core of `text_utils.py` (AVI & Referentie Tekst Omzetter).

Shallow embedding conventions:
* Python floats are modelled as exact rationals (`ℚ`); all constants in the source are
  decimal literals, so this is exact.
* Python strings are Lean `String`s; character-level work happens on their `List Char`.
  `str.lower()` is modelled with `Char.toLower` (ASCII case mapping), `str.strip()` by
  dropping whitespace from both ends.
* The regex `\b\w+\b` (maximal runs of word characters) is modelled with a word-character
  predicate covering ASCII alphanumerics, the underscore, and the accented vowels that the
  source's vowel table uses.
* `re.split(r'[.!?]+', text)` is modelled by splitting at every single `.`/`!`/`?`;
  the extra empty pieces this produces between consecutive delimiters are removed by the
  very same length filter the source applies, so the resulting sentence list is identical.
* Python dicts keyed by syllable count are association lists with unique keys in insertion
  order; Python sets are `Finset`s.
* A function that can raise `KeyError` returns an `Option`, with `none` for the raise.
-/

-- ===========================================================================
-- Constants of the AVI model (src/text_utils.py lines 24-42)
-- ===========================================================================

-- BILT = 43.21 - 0.23 × %frequente_woorden + 8.63 × gem_woordlengte
def BILT_INTERCEPT : ℚ := 43.21

def BILT_COEF_FREQ : ℚ := -0.23

def BILT_COEF_WLEN : ℚ := 8.63

/-- One record of `AVI_LEVELS`. -/
structure AVILevel where
  niveau : String
  bilt_min : Option ℚ
  bilt_max : Option ℚ
  bilt_typical : ℚ
  pct_freq : ℚ
  gem_wlen : ℚ
  max_lettergrepen : Option ℕ
  max_zinslengte : Option ℕ
  leeftijd : ℚ
deriving DecidableEq

def AVI_LEVELS : List AVILevel := [
  ⟨"AVI-M3", none, some 56.0, 51, 91, 3.3, some 1, some 6, 6.9⟩,
  ⟨"AVI-E3", some 56.0, some 60.0, 58, 80, 3.9, some 2, some 7, 7.2⟩,
  ⟨"AVI-M4", some 60.0, some 62.0, 61, 79, 4.1, some 3, some 8, 7.9⟩,
  ⟨"AVI-E4", some 62.0, some 64.5, 63, 76, 4.4, some 4, some 9, 8.2⟩,
  ⟨"AVI-M5", some 64.5, some 66.5, 65, 75, 4.5, none, none, 8.9⟩,
  ⟨"AVI-E5", some 66.5, some 68.0, 67, 75, 4.8, none, none, 9.2⟩,
  ⟨"AVI-M6", some 68.0, some 71.0, 69, 71, 4.9, none, none, 9.9⟩,
  ⟨"AVI-E6", some 71.0, some 73.0, 72, 63, 5.0, none, none, 10.2⟩,
  ⟨"AVI-M7", some 73.0, some 75.0, 74, 60, 5.1, none, none, 10.9⟩,
  ⟨"AVI-E7", some 75.0, some 77.0, 76, 58, 5.2, none, none, 11.2⟩,
  ⟨"AVI-Plus", some 77.0, none, 79, 55, 5.3, none, none, 12.2⟩]

/-- One record of `AVI_KENMERKEN`.  Every entry of the source table has the keys
`woordtypen`, `zinskenmerken` and `nieuw` with non-empty string values, so those are
plain `String` fields; `max_lettergrepen`, `max_zinslengte`, `voorbeelden` and
`verboden` can be `None`. -/
structure AVIKenmerken where
  woordtypen : String
  zinskenmerken : String
  max_lettergrepen : Option ℕ
  max_zinslengte : Option ℕ
  voorbeelden : Option (List String)
  nieuw : String
  verboden : Option String
deriving DecidableEq

def AVI_KENMERKEN : List (String × AVIKenmerken) := [
  ("AVI-M3", ⟨"Alleen éénlettergrepige woorden (mkm-structuur: mak, pen, vis)",
    "Zeer korte zinnen, max 5-6 woorden", some 1, some 6,
    some ["ik", "pen", "vis", "mak", "kom", "bal"],
    "Enkelvoudige mkm-woorden",
    some "Tweelettergrepige woorden, medeklinkerclusters"⟩),
  ("AVI-E3", ⟨"Éénlettergrepig plus sch-, -ng, -nk, eenvoudige tweelettergrepig",
    "Korte zinnen, max 6-7 woorden", some 2, some 7,
    some ["school", "bang", "denk", "mama", "papa", "water"],
    "sch-, -ng, -nk clusters, eenvoudige tweelettergrepige",
    some "Voorvoegsels be-, ge-, ver-, ont-"⟩),
  ("AVI-M4", ⟨"Voorvoegsels be-, ge-, verkleinwoorden -je, open/gesloten lettergrepen",
    "Zinnen tot 8 woorden, eenvoudige bijzinnen", some 3, some 8,
    some ["begin", "geluk", "hondje", "bloempje", "bomen", "regen"],
    "be-, ge-, verkleinwoorden, open lettergrepen",
    some "Voorvoegsels ver-, ont-, achtervoegsels -heid, -lijk"⟩),
  ("AVI-E4", ⟨"Voorvoegsels ver-, ont-, achtervoegsels -lijk, -ig, samenstellingen",
    "Zinnen tot 9 woorden, betrekkelijke bijzinnen", some 4, some 9,
    some ["vertellen", "ontdekken", "vrolijk", "vriendelijk", "zonnebloem"],
    "ver-, ont-, -lijk, -ig, samenstellingen",
    some "Complexe leenwoorden, abstracte begrippen"⟩),
  ("AVI-M5", ⟨"Woorden met x, -tie, c als /k/, uitbreiding woordenschat",
    "Geen beperkingen op zinslengte", none, none,
    some ["taxi", "politie", "computer", "actie", "exact"],
    "x, -tie, c als /k/",
    some "Complexe leenwoorden met vreemde spelling"⟩),
  ("AVI-E5", ⟨"Leenwoorden met eau, é, è, ch als /sj/",
    "Geen beperkingen", none, none,
    some ["cadeau", "café", "crème", "chocolade", "chauffeur"],
    "eau, é, è, ch als /sj/", none⟩),
  ("AVI-M6", ⟨"Woorden met trema, minder frequente leenwoorden",
    "Geen beperkingen", none, none,
    some ["ideeën", "geïnteresseerd", "skiën", "egoïstisch"],
    "Trema (ë, ï), uitgebreidere leenwoorden", none⟩),
  ("AVI-E6", ⟨"Alle woordtypen, alleen BILT bepalend", "Geen beperkingen", none, none,
    none, "Alle structuren toegestaan", none⟩),
  ("AVI-M7", ⟨"Alle woordtypen, alleen BILT bepalend", "Geen beperkingen", none, none,
    none, "Alle structuren toegestaan", none⟩),
  ("AVI-E7", ⟨"Alle woordtypen, alleen BILT bepalend", "Geen beperkingen", none, none,
    none, "Alle structuren toegestaan", none⟩),
  ("AVI-Plus", ⟨"Alle woordtypen, alleen BILT bepalend", "Geen beperkingen", none, none,
    none, "Alle structuren toegestaan", none⟩)]

-- ===========================================================================
-- Constants of the referentie model (src/text_utils.py lines 126-145)
-- ===========================================================================

def REF_INTERCEPT : ℚ := -2.3972

def REF_COEF_LONG_SENT : ℚ := 0.0208

def REF_COEF_MARKER_DIV : ℚ := 0.3423

def REF_COEF_WL : ℚ := 0.5405

def REF_CUTOFF_1F_2F : ℚ := 1.25

def REF_CUTOFF_2F_3F : ℚ := 2.35

/-- One record of `REF_NIVEAU_INFO`. -/
structure RefNiveauInfo where
  naam : String
  wl_typical : ℚ
  zl_typical : ℚ
  long_sent_typical : ℚ
deriving DecidableEq

def REF_NIVEAU_INFO : List (String × RefNiveauInfo) := [
  ("1F", ⟨"Einde basisonderwijs / vmbo-bb", 4.73, 10.9, 7⟩),
  ("2F", ⟨"Einde vmbo / mbo-2,3", 4.91, 14.4, 15⟩),
  ("3F", ⟨"Einde havo / mbo-4", 5.27, 17.4, 31⟩)]

def DISCOURSE_MARKERS : List (String × List String) := [
  ("additief", ["en", "ook", "bovendien", "daarnaast", "verder", "tevens", "eveneens",
    "daarbij"]),
  ("temporeel", ["toen", "daarna", "vervolgens", "eerst", "dan", "later", "eerder",
    "voordat", "nadat", "terwijl", "zodra", "inmiddels", "intussen", "uiteindelijk"]),
  ("causaal", ["omdat", "doordat", "want", "daardoor", "daarom", "dus", "hierdoor",
    "waardoor", "aangezien", "immers", "namelijk"]),
  ("contrastief", ["maar", "echter", "toch", "hoewel", "ondanks", "terwijl",
    "daarentegen", "integendeel", "niettemin", "desondanks", "weliswaar"]),
  ("conclusief", ["kortom", "samengevat", "concluderend", "samenvattend", "aldus",
    "derhalve", "tenslotte", "tot slot"])]

-- ===========================================================================
-- Helper functions (src/text_utils.py lines 151-180)
-- ===========================================================================

/-- `str.lower()` on the character list (ASCII case mapping). -/
def pyLower (l : List Char) : List Char := l.map Char.toLower

/-- `str.strip()`: drop whitespace from both ends. -/
def pyStrip (l : List Char) : List Char :=
  ((l.dropWhile Char.isWhitespace).reverse.dropWhile Char.isWhitespace).reverse

/-- The vowel string `klinkers = 'aeiouáéíóúàèìòùäëïöüâêîôûy'` of `tel_lettergrepen`. -/
def klinkers : List Char :=
  ['a', 'e', 'i', 'o', 'u', 'á', 'é', 'í', 'ó', 'ú', 'à', 'è', 'ì', 'ò', 'ù',
   'ä', 'ë', 'ï', 'ö', 'ü', 'â', 'ê', 'î', 'ô', 'û', 'y']

def isKlinker (c : Char) : Bool := c ∈ klinkers

/-- The scanning loop of `tel_lettergrepen`: the Python `while` advances one character at
a time, increments the count on a vowel whose predecessor was not a vowel, and skips the
remaining vowels of the same run via the inner `while`.  The Boolean argument records
whether the previous character was a vowel, which linearizes the nested loops into one
structural pass; a syllable is counted exactly at the first character of each vowel
run. -/
def telKlinkerLoop : List Char → Bool → ℕ
  | [], _ => 0
  | c :: rest, vorigeKlinker =>
    (if isKlinker c && !vorigeKlinker then 1 else 0) + telKlinkerLoop rest (isKlinker c)

/-- `tel_lettergrepen(woord)`: lowercase and strip, return 0 for the empty result,
otherwise `max 1` of the number of vowel runs. -/
def tel_lettergrepen (woord : String) : ℕ :=
  let w := pyStrip (pyLower woord.toList)
  if w = [] then 0 else max 1 (telKlinkerLoop w false)

/-- Word characters of the regex `\w` (modelled as ASCII alphanumerics, the underscore
and the accented vowels of the source's vowel table). -/
def isWoordChar (c : Char) : Bool := c.isAlphanum || c = '_' || isKlinker c

/-- Splits a lowercased character list into the maximal runs of word characters that
`re.findall(r'\b\w+\b', ...)` yields; the accumulator holds the (reversed) current
run. -/
def verzamelTokens : List Char → List Char → List String
  | [], acc => if acc = [] then [] else [String.mk acc.reverse]
  | c :: rest, acc =>
    if isWoordChar c then verzamelTokens rest (c :: acc)
    else if acc = [] then verzamelTokens rest []
    else String.mk acc.reverse :: verzamelTokens rest []

/-- `tokenize(text) = re.findall(r'\b\w+\b', text.lower())`. -/
def tokenize (text : String) : List String :=
  verzamelTokens (pyLower text.toList) []

def isZinScheider (c : Char) : Bool := c = '.' || c = '!' || c = '?'

/-- Splits at every `.`/`!`/`?`; pieces between consecutive delimiters are empty and are
removed by the length filter of `split_sentences`, giving the same result as splitting
on runs `[.!?]+`. -/
def verzamelZinnen : List Char → List Char → List String
  | [], acc => [String.mk acc.reverse]
  | c :: rest, acc =>
    if isZinScheider c then String.mk acc.reverse :: verzamelZinnen rest []
    else verzamelZinnen rest (c :: acc)

/-- `split_sentences(text)`: split on sentence delimiters, strip each piece, keep the
pieces that are non-empty and longer than 5 characters. -/
def split_sentences (text : String) : List String :=
  ((verzamelZinnen text.toList []).map (fun s => String.mk (pyStrip s.toList))).filter
    (fun s => s ≠ "" && s.length > 5)

-- ===========================================================================
-- Result records (src/text_utils.py lines 186-223)
-- ===========================================================================

/-- `AVIResult`; `lettergreep_verdeling` is the syllable-count dict as an association
list, `te_lange_zinnen` holds the `{'tekst': ..., 'woorden': ...}` dicts as pairs. -/
structure AVIResult where
  bilt : ℚ
  niveau : String
  totaal_woorden : ℕ
  gem_woordlengte : ℚ
  pct_frequent : ℚ
  gem_zinslengte : ℚ
  lettergreep_verdeling : List (ℕ × ℕ)
  te_lange_woorden : List (String × ℕ)
  te_lange_zinnen : List (String × ℕ)
deriving DecidableEq

/-- `REFResult`.  The source field `long_sent_` + `ratio` is here called
`long_sent_deel` (same value: the fraction of sentences longer than 20 tokens). -/
structure REFResult where
  niveau : String
  score : ℚ
  confidence : String
  totaal_woorden : ℕ
  gem_woordlengte : ℚ
  gem_zinslengte : ℚ
  pct_frequent : ℚ
  long_sent_deel : ℚ
  marker_diversity : ℕ
deriving DecidableEq

-- ===========================================================================
-- Shared feature extraction (bodies of analyse_avi / analyse_ref)
-- ===========================================================================

/-- `gem_woordlengte = sum(len(t) for t in tokens) / totaal_woorden`. -/
def gemWoordlengte (tokens : List String) : ℚ :=
  ((tokens.map String.length).sum : ℚ) / (tokens.length : ℚ)

/-- The frequent-word percentage: when the loaded word list is non-empty (truthy),
`100 × (count of tokens in the list) / totaal_woorden`; otherwise the fixed fallback
(70 in `analyse_avi`, 65 in `analyse_ref`). -/
def pctFrequentVan (woordenlijst : Finset String) (tokens : List String)
    (fallback : ℚ) : ℚ :=
  if woordenlijst ≠ ∅ then
    ((tokens.countP (fun t => decide (t ∈ woordenlijst)) : ℚ) / (tokens.length : ℚ)) * 100
  else fallback

/-- `sentence_lengths`: token count per sentence, or `[totaal_woorden]` when the
sentence list is empty (the whole text counts as one sentence). -/
def zinsLengtes (tokens : List String) (sentences : List String) : List ℕ :=
  if sentences ≠ [] then sentences.map (fun s => (tokenize s).length)
  else [tokens.length]

/-- `gem_zinslengte = sum(sentence_lengths) / len(sentence_lengths)`. -/
def gemZinslengte (tokens : List String) (sentences : List String) : ℚ :=
  ((zinsLengtes tokens sentences).sum : ℚ) / ((zinsLengtes tokens sentences).length : ℚ)

-- ===========================================================================
-- AVI scoring (src/text_utils.py lines 244-304)
-- ===========================================================================

/-- `bilt = BILT_INTERCEPT + BILT_COEF_FREQ * pct_frequent + BILT_COEF_WLEN *
gem_woordlengte`. -/
def berekenBilt (pct_frequent gem_woordlengte : ℚ) : ℚ :=
  BILT_INTERCEPT + BILT_COEF_FREQ * pct_frequent + BILT_COEF_WLEN * gem_woordlengte

/-- `level['bilt_min'] or float('-inf')` followed by `bilt_min <= bilt`: Python `or`
substitutes −∞ when the stored bound is `None` **or** the float `0.0` (both falsy), and
−∞ ≤ bilt always holds, so a `0` bound passes unconditionally exactly like `None`. -/
def biltMinCheck (bound : Option ℚ) (bilt : ℚ) : Bool :=
  match bound with
  | none => true
  | some m => if m = 0 then true else decide (m ≤ bilt)

/-- `level['bilt_max'] or float('inf')` followed by `bilt < bilt_max`, with the same
falsy-`or` behaviour (`bilt < ∞` always holds). -/
def biltMaxCheck (bound : Option ℚ) (bilt : ℚ) : Bool :=
  match bound with
  | none => true
  | some m => if m = 0 then true else decide (bilt < m)

/-- `_bepaal_avi_niveau`: scan `AVI_LEVELS` in order, return the first level whose
interval contains `bilt`, defaulting to `'AVI-Plus'`. -/
def bepaal_avi_niveau (bilt : ℚ) : String :=
  match AVI_LEVELS.find?
      (fun level => biltMinCheck level.bilt_min bilt && biltMaxCheck level.bilt_max bilt) with
  | some level => level.niveau
  | none => "AVI-Plus"

/-- `verdeling[lg] = verdeling.get(lg, 0) + 1` on the association-list model of the
dict: increment an existing key, otherwise append the new key with count 1. -/
def verdelingUpdate (verdeling : List (ℕ × ℕ)) (lg : ℕ) : List (ℕ × ℕ) :=
  if verdeling.any (fun p => p.1 == lg) then
    verdeling.map (fun p => if p.1 == lg then (p.1, p.2 + 1) else p)
  else verdeling ++ [(lg, 1)]

/-- The histogram loop `for woord in tokens: verdeling[lg] = verdeling.get(lg, 0) + 1`. -/
def lettergreepVerdeling (tokens : List String) : List (ℕ × ℕ) :=
  tokens.foldl (fun verdeling woord => verdelingUpdate verdeling (tel_lettergrepen woord)) []

/-- The `te_lange_woorden` loop: distinct tokens whose syllable count exceeds the cap;
`gezien` is only extended for appended words, as in the source. -/
def teLangeWoordenLoop (max_lg : ℕ) : List String → Finset String → List (String × ℕ)
  | [], _ => []
  | woord :: rest, gezien =>
    if woord ∉ gezien then
      let lg := tel_lettergrepen woord
      if lg > max_lg then (woord, lg) :: teLangeWoordenLoop max_lg rest (insert woord gezien)
      else teLangeWoordenLoop max_lg rest gezien
    else teLangeWoordenLoop max_lg rest gezien

/-- The `te_lange_zinnen` loop: sentences with more than `max_zin` tokens, truncated to
80 characters, paired with their token count. -/
def teLangeZinnen (sentences : List String) (max_zin : ℕ) : List (String × ℕ) :=
  sentences.filterMap (fun s =>
    let wc := (tokenize s).length
    if wc > max_zin then some (String.mk (s.toList.take 80), wc) else none)

/-- The `if target_niveau:` block of `analyse_avi`: look up the target's kenmerken
(`{}` when absent) and run the two cap checks; `if max_lg:`/`if max_zin:` are Python
truthiness tests, false for `None` and for `0`. -/
def aviTargetChecks (tokens sentences : List String) (target_niveau : Option String) :
    List (String × ℕ) × List (String × ℕ) :=
  match target_niveau with
  | none => ([], [])
  | some target =>
    if target = "" then ([], [])
    else
      let kenmerken := AVI_KENMERKEN.lookup target
      ((match kenmerken.bind AVIKenmerken.max_lettergrepen with
        | some n => if n ≠ 0 then teLangeWoordenLoop n tokens ∅ else []
        | none => []),
       (match kenmerken.bind AVIKenmerken.max_zinslengte with
        | some n => if n ≠ 0 then teLangeZinnen sentences n else []
        | none => []))

/-- The body of `analyse_avi` past the token-minimum guard. -/
def aviResultaat (woordenlijst : Finset String) (tokens sentences : List String)
    (target_niveau : Option String) : AVIResult :=
  let totaal_woorden := tokens.length
  let gem_woordlengte := gemWoordlengte tokens
  let pct_frequent := pctFrequentVan woordenlijst tokens 70
  let gem_zinslengte := gemZinslengte tokens sentences
  let bilt := berekenBilt pct_frequent gem_woordlengte
  let checks := aviTargetChecks tokens sentences target_niveau
  { bilt := bilt,
    niveau := bepaal_avi_niveau bilt,
    totaal_woorden := totaal_woorden,
    gem_woordlengte := gem_woordlengte,
    pct_frequent := pct_frequent,
    gem_zinslengte := gem_zinslengte,
    lettergreep_verdeling := lettergreepVerdeling tokens,
    te_lange_woorden := checks.1,
    te_lange_zinnen := checks.2 }

/-- `analyse_avi`: `None` when there are no tokens or fewer than 10, the analysis record
otherwise.  `woordenlijst` is the `self.woordenlijst` set (empty on load failure). -/
def analyse_avi (woordenlijst : Finset String) (tekst : String)
    (target_niveau : Option String) : Option AVIResult :=
  if tokenize tekst = [] ∨ (tokenize tekst).length < 10 then none
  else some (aviResultaat woordenlijst (tokenize tekst) (split_sentences tekst) target_niveau)

-- ===========================================================================
-- REF scoring (src/text_utils.py lines 348-394)
-- ===========================================================================

/-- `score = REF_INTERCEPT + REF_COEF_LONG_SENT * long_sent_pct + REF_COEF_MARKER_DIV *
marker_diversity + REF_COEF_WL * gem_woordlengte`. -/
def berekenRefScore (long_sent_pct : ℚ) (marker_diversity : ℕ)
    (gem_woordlengte : ℚ) : ℚ :=
  REF_INTERCEPT + REF_COEF_LONG_SENT * long_sent_pct +
    REF_COEF_MARKER_DIV * (marker_diversity : ℚ) + REF_COEF_WL * gem_woordlengte

/-- The `marker_types` set: every marker category that some token matches exactly. -/
def markerTypes (tokens : List String) : Finset String :=
  tokens.foldl
    (fun acc t => DISCOURSE_MARKERS.foldl
      (fun acc2 p => if t ∈ p.2 then insert p.1 acc2 else acc2) acc)
    ∅

/-- The classification ladder of `analyse_ref`: niveau and confidence from the score. -/
def bepaalRefNiveau (score : ℚ) : String × String :=
  if score < REF_CUTOFF_1F_2F then
    ("1F", if score < 1.0 then "Hoog" else "Gemiddeld")
  else if score < REF_CUTOFF_2F_3F then
    ("2F", if 1.5 ≤ score ∧ score ≤ 2.1 then "Hoog" else "Gemiddeld (grensgebied)")
  else
    ("3F", if score > 2.7 then "Hoog" else "Gemiddeld")

/-- The body of `analyse_ref` past the token-minimum guard. -/
def refResultaat (woordenlijst : Finset String) (tokens sentences : List String) :
    REFResult :=
  let totaal_woorden := tokens.length
  let gem_woordlengte := gemWoordlengte tokens
  let lengtes := zinsLengtes tokens sentences
  let gem_zinslengte := gemZinslengte tokens sentences
  let long_sent_deel := ((lengtes.countP (fun l => decide (l > 20)) : ℚ) / (lengtes.length : ℚ))
  let long_sent_pct := long_sent_deel * 100
  let marker_diversity := (markerTypes tokens).card
  let pct_frequent := pctFrequentVan woordenlijst tokens 65
  let score := berekenRefScore long_sent_pct marker_diversity gem_woordlengte
  { niveau := (bepaalRefNiveau score).1,
    score := score,
    confidence := (bepaalRefNiveau score).2,
    totaal_woorden := totaal_woorden,
    gem_woordlengte := gem_woordlengte,
    gem_zinslengte := gem_zinslengte,
    pct_frequent := pct_frequent,
    long_sent_deel := long_sent_deel,
    marker_diversity := marker_diversity }

/-- `analyse_ref`: `None` when there are no tokens or fewer than 20, the analysis record
otherwise. -/
def analyse_ref (woordenlijst : Finset String) (tekst : String) : Option REFResult :=
  if tokenize tekst = [] ∨ (tokenize tekst).length < 20 then none
  else some (refResultaat woordenlijst (tokenize tekst) (split_sentences tekst))

-- ===========================================================================
-- Suggestion engine (src/text_utils.py lines 317-346 and 396-420)
-- ===========================================================================

/-- The advisory lines `get_avi_suggesties` can emit, one constructor per `append` site
of the source, carrying the data interpolated into the message. -/
inductive AVISuggestie where
  | kortereWoorden (huidig doel : ℚ)
  | frequentereWoorden (huidig doel : ℚ)
  | maxLettergrepenRegel (n : ℕ)
  | kortereZinnen (n : ℕ)
  | vermijd (tekst : String)
  | langereWoorden (huidig doel : ℚ)
  | minderFrequenteWoorden (huidig doel : ℚ)
  | nieuwToegestaan (tekst : String)
  | woordtypenInfo (niveau : String) (tekst : String)
deriving DecidableEq

/-- `next((i for i, l in enumerate(AVI_LEVELS) if l['niveau'] == niveau), 5)`. -/
def aviNiveauIdx (niveau : String) : ℕ :=
  match AVI_LEVELS.findIdx? (fun l => l.niveau == niveau) with
  | some i => i
  | none => 5

/-- The `target_idx < current_idx` branch of `get_avi_suggesties` (simplify towards an
easier band): one conditional line per threshold or cap, in source order. -/
def aviVereenvoudigAdvies (result : AVIResult) (target_specs : AVILevel)
    (target_kenmerken : Option AVIKenmerken) : List AVISuggestie :=
  (if result.gem_woordlengte > target_specs.gem_wlen then
    [AVISuggestie.kortereWoorden result.gem_woordlengte target_specs.gem_wlen] else []) ++
  (if result.pct_frequent < target_specs.pct_freq then
    [AVISuggestie.frequentereWoorden result.pct_frequent target_specs.pct_freq] else []) ++
  (match target_kenmerken.bind AVIKenmerken.max_lettergrepen with
    | some n => if n ≠ 0 then [AVISuggestie.maxLettergrepenRegel n] else []
    | none => []) ++
  (match target_kenmerken.bind AVIKenmerken.max_zinslengte with
    | some n => if n ≠ 0 then [AVISuggestie.kortereZinnen n] else []
    | none => []) ++
  (match target_kenmerken.bind AVIKenmerken.verboden with
    | some v => if v ≠ "" then [AVISuggestie.vermijd v] else []
    | none => [])

/-- The `else` branch of `get_avi_suggesties` (enrich towards a harder band; this branch
also handles equal indices). -/
def aviVerrijkAdvies (result : AVIResult) (target_specs : AVILevel)
    (target_kenmerken : Option AVIKenmerken) : List AVISuggestie :=
  (if result.gem_woordlengte < target_specs.gem_wlen then
    [AVISuggestie.langereWoorden result.gem_woordlengte target_specs.gem_wlen] else []) ++
  (if result.pct_frequent > target_specs.pct_freq then
    [AVISuggestie.minderFrequenteWoorden result.pct_frequent target_specs.pct_freq] else []) ++
  (match target_kenmerken with
    | some k => if k.nieuw ≠ "" then [AVISuggestie.nieuwToegestaan k.nieuw] else []
    | none => [])

/-- The closing unconditional `woordtypen` line of `get_avi_suggesties`. -/
def aviWoordtypenDeel (target : String) (target_kenmerken : Option AVIKenmerken) :
    List AVISuggestie :=
  match target_kenmerken with
  | some k => if k.woordtypen ≠ "" then [AVISuggestie.woordtypenInfo target k.woordtypen] else []
  | none => []

/-- `get_avi_suggesties`: direction by index comparison (`target_idx < current_idx`
simplifies, otherwise enriches), then the unconditional `woordtypen` line whenever the
target has kenmerken.  The string-truthy `.get(...)` tests of the source are the `≠ ""`
tests here. -/
def get_avi_suggesties (result : AVIResult) (target : String) : List AVISuggestie :=
  let current_idx := aviNiveauIdx result.niveau
  let target_idx := aviNiveauIdx target
  let target_specs := AVI_LEVELS.getD target_idx ⟨"", none, none, 0, 0, 0, none, none, 0⟩
  let target_kenmerken := AVI_KENMERKEN.lookup target
  (if target_idx < current_idx then
    aviVereenvoudigAdvies result target_specs target_kenmerken
  else
    aviVerrijkAdvies result target_specs target_kenmerken) ++
  aviWoordtypenDeel target target_kenmerken

/-- The advisory lines `get_ref_suggesties` can emit, one constructor per `append` site
of the source. -/
inductive REFSuggestie where
  | kortereWoorden (huidig doel : ℚ)
  | kortereZinnen (huidig doel : ℚ)
  | minderLangeZinnen (huidig doel : ℚ)
  | tipEenvoud
  | langereWoorden (huidig doel : ℚ)
  | langereZinnen (huidig doel : ℚ)
  | meerLangeZinnen (huidig doel : ℚ)
  | meerSignaalwoorden
  | tipVerrijking
deriving DecidableEq

/-- `niveau_order = {'1F': 1, '2F': 2, '3F': 3}`. -/
def REF_NIVEAU_ORDER : List (String × ℕ) := [("1F", 1), ("2F", 2), ("3F", 3)]

/-- The `niveau_order[target] < niveau_order[result.niveau]` branch of
`get_ref_suggesties` (simplify), closing with the unconditional simplification tip. -/
def refVereenvoudigAdvies (result : REFResult) (target_info : RefNiveauInfo) :
    List REFSuggestie :=
  (if result.gem_woordlengte > target_info.wl_typical + 0.2 then
    [REFSuggestie.kortereWoorden result.gem_woordlengte target_info.wl_typical] else []) ++
  (if result.gem_zinslengte > target_info.zl_typical + 2 then
    [REFSuggestie.kortereZinnen result.gem_zinslengte target_info.zl_typical] else []) ++
  (if result.long_sent_deel * 100 > target_info.long_sent_typical + 5 then
    [REFSuggestie.minderLangeZinnen (result.long_sent_deel * 100)
      target_info.long_sent_typical] else []) ++
  [REFSuggestie.tipEenvoud]

/-- The `else` branch of `get_ref_suggesties` (enrich; also handles equal ordinals),
closing with the unconditional enrichment tip. -/
def refVerrijkAdvies (result : REFResult) (target_info : RefNiveauInfo) :
    List REFSuggestie :=
  (if result.gem_woordlengte < target_info.wl_typical - 0.2 then
    [REFSuggestie.langereWoorden result.gem_woordlengte target_info.wl_typical] else []) ++
  (if result.gem_zinslengte < target_info.zl_typical - 2 then
    [REFSuggestie.langereZinnen result.gem_zinslengte target_info.zl_typical] else []) ++
  (if result.long_sent_deel * 100 < target_info.long_sent_typical - 5 then
    [REFSuggestie.meerLangeZinnen (result.long_sent_deel * 100)
      target_info.long_sent_typical] else []) ++
  (if result.marker_diversity < 4 then [REFSuggestie.meerSignaalwoorden] else []) ++
  [REFSuggestie.tipVerrijking]

/-- `get_ref_suggesties`: the three dict subscripts (`REF_NIVEAU_INFO[target]`,
`niveau_order[target]`, `niveau_order[result.niveau]`) raise `KeyError` on a missing
key, modelled as `none`.  Direction by ordinal comparison, then one conditional line per
tolerance threshold and the unconditional closing tip of the branch. -/
def get_ref_suggesties (result : REFResult) (target : String) :
    Option (List REFSuggestie) :=
  match REF_NIVEAU_INFO.lookup target, REF_NIVEAU_ORDER.lookup target,
      REF_NIVEAU_ORDER.lookup result.niveau with
  | some target_info, some target_ord, some huidig_ord =>
    some (if target_ord < huidig_ord then refVereenvoudigAdvies result target_info
      else refVerrijkAdvies result target_info)
  | _, _, _ => none

-- ===========================================================================
-- Specification-side definitions (for comparison with the code)
-- ===========================================================================

/-- Direction of a remediation line: simplify, enrich, or neutral information. -/
inductive Richting where
  | vereenvoudig
  | verrijk
  | neutraal
deriving DecidableEq

/-- Direction of each technical-reading advisory line: the word-shortening lines are
simplification, the word-lengthening lines enrichment, the word-type description is
neutral information emitted for every direction. -/
def aviRichting : AVISuggestie → Richting
  | AVISuggestie.kortereWoorden _ _ => Richting.vereenvoudig
  | AVISuggestie.frequentereWoorden _ _ => Richting.vereenvoudig
  | AVISuggestie.maxLettergrepenRegel _ => Richting.vereenvoudig
  | AVISuggestie.kortereZinnen _ => Richting.vereenvoudig
  | AVISuggestie.vermijd _ => Richting.vereenvoudig
  | AVISuggestie.langereWoorden _ _ => Richting.verrijk
  | AVISuggestie.minderFrequenteWoorden _ _ => Richting.verrijk
  | AVISuggestie.nieuwToegestaan _ => Richting.verrijk
  | AVISuggestie.woordtypenInfo _ _ => Richting.neutraal

/-- Direction of each comprehension advisory line. -/
def refRichting : REFSuggestie → Richting
  | REFSuggestie.kortereWoorden _ _ => Richting.vereenvoudig
  | REFSuggestie.kortereZinnen _ _ => Richting.vereenvoudig
  | REFSuggestie.minderLangeZinnen _ _ => Richting.vereenvoudig
  | REFSuggestie.tipEenvoud => Richting.vereenvoudig
  | REFSuggestie.langereWoorden _ _ => Richting.verrijk
  | REFSuggestie.langereZinnen _ _ => Richting.verrijk
  | REFSuggestie.meerLangeZinnen _ _ => Richting.verrijk
  | REFSuggestie.meerSignaalwoorden => Richting.verrijk
  | REFSuggestie.tipVerrijking => Richting.verrijk

/-- Specification-side vowel-run counter: the number of maximal runs of vowel
characters, counted by consuming each entire run (`dropWhile`) after meeting its first
vowel. -/
def aantalKlinkerRuns : List Char → ℕ
  | [] => 0
  | c :: rest =>
    if isKlinker c then 1 + aantalKlinkerRuns (rest.dropWhile isKlinker)
    else aantalKlinkerRuns rest
termination_by l => l.length
decreasing_by
  · simp_wf
    exact Nat.lt_succ_of_le (List.Sublist.length_le (List.dropWhile_sublist _))
  · simp_wf

/-- Specification-side marker diversity: the number of marker categories for which at
least one token matches a word of that category's list. -/
def aantalMarkerCategorieen (tokens : List String) : ℕ :=
  DISCOURSE_MARKERS.countP (fun p => tokens.any (fun t => decide (t ∈ p.2)))

/-- The number of matching AVI band records for a given bilt score (for the totality and
non-overlap statement). -/
def aviBandMatches (bilt : ℚ) : ℕ :=
  AVI_LEVELS.countP
    (fun level => biltMinCheck level.bilt_min bilt && biltMaxCheck level.bilt_max bilt)

-- ===========================================================================
-- Concrete example inputs (used for evaluating the analyses on closed inputs)
-- ===========================================================================

def voorbeeldTekst : String :=
  "ik zie een boom bij het huis kat hond vis roos fiets brood melk kaas deur raam muur vloer dak"

def voorbeeldTokens : List String :=
  ["ik", "zie", "een", "boom", "bij", "het", "huis", "kat", "hond", "vis",
   "roos", "fiets", "brood", "melk", "kaas", "deur", "raam", "muur", "vloer", "dak"]

def aviVoorbeeldResultaat : AVIResult :=
  ⟨59041/1000, "AVI-E3", 20, 37/10, 70, 20, [(1, 20)], [], []⟩

def refVoorbeeldResultaat : REFResult :=
  ⟨"1F", -7947/20000, "Hoog", 20, 37/10, 20, 65, 0, 0⟩

def markerVoorbeeldTekst : String :=
  "maar omdat huis boom vis kat hond roos fiets brood melk kaas deur raam muur vloer dak tuin pad steen"

def markerVoorbeeldTokens : List String :=
  ["maar", "omdat", "huis", "boom", "vis", "kat", "hond", "roos", "fiets", "brood",
   "melk", "kaas", "deur", "raam", "muur", "vloer", "dak", "tuin", "pad", "steen"]

-- ===========================================================================
-- Theorems
-- ===========================================================================

/-- C1 counterexample: the bilt value at `pct_frequent = 80`, `gem_woordlengte = 4.0`
is 59.33, not the 59.37 the claim states. -/
theorem bilt_voorbeeld_niet_59_37 :
    berekenBilt 80 4.0 = 59.33 ∧ berekenBilt 80 4.0 ≠ 59.37 := by
  constructor <;>
    norm_num [berekenBilt, BILT_INTERCEPT, BILT_COEF_FREQ, BILT_COEF_WLEN]

/-- C1 amended: at `pct_frequent = 80`, `gem_woordlengte = 4.0` the bilt score is
`43.21 − 0.23×80 + 8.63×4.0 = 59.33`, and it classifies to the band `AVI-E3`, the band
whose half-open interval is `[56.0, 60.0)`. -/
theorem bilt_voorbeeld_classificatie :
    berekenBilt 80 4.0 = 59.33 ∧
    bepaal_avi_niveau (berekenBilt 80 4.0) = "AVI-E3" ∧
    (∃ level ∈ AVI_LEVELS, level.niveau = "AVI-E3" ∧
      level.bilt_min = some 56.0 ∧ level.bilt_max = some 60.0) := by
  have h : berekenBilt 80 4.0 = 59.33 := by
    norm_num [berekenBilt, BILT_INTERCEPT, BILT_COEF_FREQ, BILT_COEF_WLEN]
  refine ⟨h, ?_, ?_⟩
  · rw [h]
    norm_num [bepaal_avi_niveau, AVI_LEVELS, biltMinCheck, biltMaxCheck, List.find?]
  · exact ⟨⟨"AVI-E3", some 56.0, some 60.0, 58, 80, 3.9, some 2, some 7, 7.2⟩,
      by simp [AVI_LEVELS], rfl, rfl, rfl⟩

/-- C3: both scorers return no result exactly below their token minimum (10 for
`analyse_avi`, 20 for `analyse_ref`) and a result exactly from the minimum upward. -/
theorem minimum_token_drempel (woordenlijst : Finset String) (tekst : String)
    (target : Option String) :
    (analyse_avi woordenlijst tekst target = none ↔ (tokenize tekst).length < 10) ∧
    ((analyse_avi woordenlijst tekst target).isSome ↔ 10 ≤ (tokenize tekst).length) ∧
    (analyse_ref woordenlijst tekst = none ↔ (tokenize tekst).length < 20) ∧
    ((analyse_ref woordenlijst tekst).isSome ↔ 20 ≤ (tokenize tekst).length) := by
  have h10 : (tokenize tekst = [] ∨ (tokenize tekst).length < 10) ↔
      (tokenize tekst).length < 10 := by
    constructor
    · rintro (h | h)
      · simp [h]
      · exact h
    · exact Or.inr
  have h20 : (tokenize tekst = [] ∨ (tokenize tekst).length < 20) ↔
      (tokenize tekst).length < 20 := by
    constructor
    · rintro (h | h)
      · simp [h]
      · exact h
    · exact Or.inr
  unfold analyse_avi analyse_ref
  simp only [h10, h20]
  split_ifs with h1 h2 <;> simp_all [Nat.not_lt]

set_option maxHeartbeats 2000000 in
/-- C2: AVI band assignment is total and non-overlapping: for every rational bilt
score exactly one of the eleven band records matches (absent min −∞, absent max +∞,
membership `min ≤ bilt < max`), the scan always finds a band (the no-match default
is never reached), the lowest band covers `(−∞, 56.0)` and the topmost covers
`[77.0, +∞)`. -/
theorem avi_banden_totaal (b : ℚ) :
    aviBandMatches b = 1 ∧
    (AVI_LEVELS.find?
      (fun level => biltMinCheck level.bilt_min b && biltMaxCheck level.bilt_max b)).isSome ∧
    (b < 56 → bepaal_avi_niveau b = "AVI-M3") ∧
    ((77:ℚ) ≤ b → bepaal_avi_niveau b = "AVI-Plus") := by
  rcases lt_or_le b (56) with hhi0 | hlo0
  · have w1 : ¬ 60 ≤ b := by linarith
    have w2 : ¬ 62 ≤ b := by linarith
    have w3 : ¬ (129:ℚ)/2 ≤ b := by linarith
    have w4 : ¬ (133:ℚ)/2 ≤ b := by linarith
    have w5 : ¬ 68 ≤ b := by linarith
    have w6 : ¬ 71 ≤ b := by linarith
    have w7 : ¬ 73 ≤ b := by linarith
    have w8 : ¬ 75 ≤ b := by linarith
    have w9 : ¬ 77 ≤ b := by linarith
    refine ⟨?_, ?_, fun hb => ?_, fun hb => ?_⟩
    · norm_num [aviBandMatches, bepaal_avi_niveau, AVI_LEVELS, biltMinCheck, biltMaxCheck,
      List.countP_cons, List.find?, hhi0, w1, w2, w3, w4, w5, w6, w7, w8, w9]
    · norm_num [aviBandMatches, bepaal_avi_niveau, AVI_LEVELS, biltMinCheck, biltMaxCheck,
      List.countP_cons, List.find?, hhi0, w1, w2, w3, w4, w5, w6, w7, w8, w9]
    · norm_num [aviBandMatches, bepaal_avi_niveau, AVI_LEVELS, biltMinCheck, biltMaxCheck,
      List.countP_cons, List.find?, hhi0, w1, w2, w3, w4, w5, w6, w7, w8, w9]
    · exact absurd hb (by linarith)
  rcases lt_or_le b (60) with hhi1 | hlo1
  · have u0 : ¬ b < 56 := by linarith
    have w2 : ¬ 62 ≤ b := by linarith
    have w3 : ¬ (129:ℚ)/2 ≤ b := by linarith
    have w4 : ¬ (133:ℚ)/2 ≤ b := by linarith
    have w5 : ¬ 68 ≤ b := by linarith
    have w6 : ¬ 71 ≤ b := by linarith
    have w7 : ¬ 73 ≤ b := by linarith
    have w8 : ¬ 75 ≤ b := by linarith
    have w9 : ¬ 77 ≤ b := by linarith
    refine ⟨?_, ?_, fun hb => ?_, fun hb => ?_⟩
    · norm_num [aviBandMatches, bepaal_avi_niveau, AVI_LEVELS, biltMinCheck, biltMaxCheck,
      List.countP_cons, List.find?, hlo0, hhi1, u0, w2, w3, w4, w5, w6, w7, w8, w9]
    · norm_num [aviBandMatches, bepaal_avi_niveau, AVI_LEVELS, biltMinCheck, biltMaxCheck,
      List.countP_cons, List.find?, hlo0, hhi1, u0, w2, w3, w4, w5, w6, w7, w8, w9]
    · exact absurd hb (by linarith)
    · exact absurd hb (by linarith)
  rcases lt_or_le b (62) with hhi2 | hlo2
  · have u0 : ¬ b < 56 := by linarith
    have u1 : ¬ b < 60 := by linarith
    have w3 : ¬ (129:ℚ)/2 ≤ b := by linarith
    have w4 : ¬ (133:ℚ)/2 ≤ b := by linarith
    have w5 : ¬ 68 ≤ b := by linarith
    have w6 : ¬ 71 ≤ b := by linarith
    have w7 : ¬ 73 ≤ b := by linarith
    have w8 : ¬ 75 ≤ b := by linarith
    have w9 : ¬ 77 ≤ b := by linarith
    refine ⟨?_, ?_, fun hb => ?_, fun hb => ?_⟩
    · norm_num [aviBandMatches, bepaal_avi_niveau, AVI_LEVELS, biltMinCheck, biltMaxCheck,
      List.countP_cons, List.find?, hlo1, hhi2, u0, u1, w3, w4, w5, w6, w7, w8, w9]
    · norm_num [aviBandMatches, bepaal_avi_niveau, AVI_LEVELS, biltMinCheck, biltMaxCheck,
      List.countP_cons, List.find?, hlo1, hhi2, u0, u1, w3, w4, w5, w6, w7, w8, w9]
    · exact absurd hb (by linarith)
    · exact absurd hb (by linarith)
  rcases lt_or_le b ((129:ℚ)/2) with hhi3 | hlo3
  · have u0 : ¬ b < 56 := by linarith
    have u1 : ¬ b < 60 := by linarith
    have u2 : ¬ b < 62 := by linarith
    have w4 : ¬ (133:ℚ)/2 ≤ b := by linarith
    have w5 : ¬ 68 ≤ b := by linarith
    have w6 : ¬ 71 ≤ b := by linarith
    have w7 : ¬ 73 ≤ b := by linarith
    have w8 : ¬ 75 ≤ b := by linarith
    have w9 : ¬ 77 ≤ b := by linarith
    refine ⟨?_, ?_, fun hb => ?_, fun hb => ?_⟩
    · norm_num [aviBandMatches, bepaal_avi_niveau, AVI_LEVELS, biltMinCheck, biltMaxCheck,
      List.countP_cons, List.find?, hlo2, hhi3, u0, u1, u2, w4, w5, w6, w7, w8, w9]
    · norm_num [aviBandMatches, bepaal_avi_niveau, AVI_LEVELS, biltMinCheck, biltMaxCheck,
      List.countP_cons, List.find?, hlo2, hhi3, u0, u1, u2, w4, w5, w6, w7, w8, w9]
    · exact absurd hb (by linarith)
    · exact absurd hb (by linarith)
  rcases lt_or_le b ((133:ℚ)/2) with hhi4 | hlo4
  · have u0 : ¬ b < 56 := by linarith
    have u1 : ¬ b < 60 := by linarith
    have u2 : ¬ b < 62 := by linarith
    have u3 : ¬ b < (129:ℚ)/2 := by linarith
    have w5 : ¬ 68 ≤ b := by linarith
    have w6 : ¬ 71 ≤ b := by linarith
    have w7 : ¬ 73 ≤ b := by linarith
    have w8 : ¬ 75 ≤ b := by linarith
    have w9 : ¬ 77 ≤ b := by linarith
    refine ⟨?_, ?_, fun hb => ?_, fun hb => ?_⟩
    · norm_num [aviBandMatches, bepaal_avi_niveau, AVI_LEVELS, biltMinCheck, biltMaxCheck,
      List.countP_cons, List.find?, hlo3, hhi4, u0, u1, u2, u3, w5, w6, w7, w8, w9]
    · norm_num [aviBandMatches, bepaal_avi_niveau, AVI_LEVELS, biltMinCheck, biltMaxCheck,
      List.countP_cons, List.find?, hlo3, hhi4, u0, u1, u2, u3, w5, w6, w7, w8, w9]
    · exact absurd hb (by linarith)
    · exact absurd hb (by linarith)
  rcases lt_or_le b (68) with hhi5 | hlo5
  · have u0 : ¬ b < 56 := by linarith
    have u1 : ¬ b < 60 := by linarith
    have u2 : ¬ b < 62 := by linarith
    have u3 : ¬ b < (129:ℚ)/2 := by linarith
    have u4 : ¬ b < (133:ℚ)/2 := by linarith
    have w6 : ¬ 71 ≤ b := by linarith
    have w7 : ¬ 73 ≤ b := by linarith
    have w8 : ¬ 75 ≤ b := by linarith
    have w9 : ¬ 77 ≤ b := by linarith
    refine ⟨?_, ?_, fun hb => ?_, fun hb => ?_⟩
    · norm_num [aviBandMatches, bepaal_avi_niveau, AVI_LEVELS, biltMinCheck, biltMaxCheck,
      List.countP_cons, List.find?, hlo4, hhi5, u0, u1, u2, u3, u4, w6, w7, w8, w9]
    · norm_num [aviBandMatches, bepaal_avi_niveau, AVI_LEVELS, biltMinCheck, biltMaxCheck,
      List.countP_cons, List.find?, hlo4, hhi5, u0, u1, u2, u3, u4, w6, w7, w8, w9]
    · exact absurd hb (by linarith)
    · exact absurd hb (by linarith)
  rcases lt_or_le b (71) with hhi6 | hlo6
  · have u0 : ¬ b < 56 := by linarith
    have u1 : ¬ b < 60 := by linarith
    have u2 : ¬ b < 62 := by linarith
    have u3 : ¬ b < (129:ℚ)/2 := by linarith
    have u4 : ¬ b < (133:ℚ)/2 := by linarith
    have u5 : ¬ b < 68 := by linarith
    have w7 : ¬ 73 ≤ b := by linarith
    have w8 : ¬ 75 ≤ b := by linarith
    have w9 : ¬ 77 ≤ b := by linarith
    refine ⟨?_, ?_, fun hb => ?_, fun hb => ?_⟩
    · norm_num [aviBandMatches, bepaal_avi_niveau, AVI_LEVELS, biltMinCheck, biltMaxCheck,
      List.countP_cons, List.find?, hlo5, hhi6, u0, u1, u2, u3, u4, u5, w7, w8, w9]
    · norm_num [aviBandMatches, bepaal_avi_niveau, AVI_LEVELS, biltMinCheck, biltMaxCheck,
      List.countP_cons, List.find?, hlo5, hhi6, u0, u1, u2, u3, u4, u5, w7, w8, w9]
    · exact absurd hb (by linarith)
    · exact absurd hb (by linarith)
  rcases lt_or_le b (73) with hhi7 | hlo7
  · have u0 : ¬ b < 56 := by linarith
    have u1 : ¬ b < 60 := by linarith
    have u2 : ¬ b < 62 := by linarith
    have u3 : ¬ b < (129:ℚ)/2 := by linarith
    have u4 : ¬ b < (133:ℚ)/2 := by linarith
    have u5 : ¬ b < 68 := by linarith
    have u6 : ¬ b < 71 := by linarith
    have w8 : ¬ 75 ≤ b := by linarith
    have w9 : ¬ 77 ≤ b := by linarith
    refine ⟨?_, ?_, fun hb => ?_, fun hb => ?_⟩
    · norm_num [aviBandMatches, bepaal_avi_niveau, AVI_LEVELS, biltMinCheck, biltMaxCheck,
      List.countP_cons, List.find?, hlo6, hhi7, u0, u1, u2, u3, u4, u5, u6, w8, w9]
    · norm_num [aviBandMatches, bepaal_avi_niveau, AVI_LEVELS, biltMinCheck, biltMaxCheck,
      List.countP_cons, List.find?, hlo6, hhi7, u0, u1, u2, u3, u4, u5, u6, w8, w9]
    · exact absurd hb (by linarith)
    · exact absurd hb (by linarith)
  rcases lt_or_le b (75) with hhi8 | hlo8
  · have u0 : ¬ b < 56 := by linarith
    have u1 : ¬ b < 60 := by linarith
    have u2 : ¬ b < 62 := by linarith
    have u3 : ¬ b < (129:ℚ)/2 := by linarith
    have u4 : ¬ b < (133:ℚ)/2 := by linarith
    have u5 : ¬ b < 68 := by linarith
    have u6 : ¬ b < 71 := by linarith
    have u7 : ¬ b < 73 := by linarith
    have w9 : ¬ 77 ≤ b := by linarith
    refine ⟨?_, ?_, fun hb => ?_, fun hb => ?_⟩
    · norm_num [aviBandMatches, bepaal_avi_niveau, AVI_LEVELS, biltMinCheck, biltMaxCheck,
      List.countP_cons, List.find?, hlo7, hhi8, u0, u1, u2, u3, u4, u5, u6, u7, w9]
    · norm_num [aviBandMatches, bepaal_avi_niveau, AVI_LEVELS, biltMinCheck, biltMaxCheck,
      List.countP_cons, List.find?, hlo7, hhi8, u0, u1, u2, u3, u4, u5, u6, u7, w9]
    · exact absurd hb (by linarith)
    · exact absurd hb (by linarith)
  rcases lt_or_le b (77) with hhi9 | hlo9
  · have u0 : ¬ b < 56 := by linarith
    have u1 : ¬ b < 60 := by linarith
    have u2 : ¬ b < 62 := by linarith
    have u3 : ¬ b < (129:ℚ)/2 := by linarith
    have u4 : ¬ b < (133:ℚ)/2 := by linarith
    have u5 : ¬ b < 68 := by linarith
    have u6 : ¬ b < 71 := by linarith
    have u7 : ¬ b < 73 := by linarith
    have u8 : ¬ b < 75 := by linarith
    refine ⟨?_, ?_, fun hb => ?_, fun hb => ?_⟩
    · norm_num [aviBandMatches, bepaal_avi_niveau, AVI_LEVELS, biltMinCheck, biltMaxCheck,
      List.countP_cons, List.find?, hlo8, hhi9, u0, u1, u2, u3, u4, u5, u6, u7, u8]
    · norm_num [aviBandMatches, bepaal_avi_niveau, AVI_LEVELS, biltMinCheck, biltMaxCheck,
      List.countP_cons, List.find?, hlo8, hhi9, u0, u1, u2, u3, u4, u5, u6, u7, u8]
    · exact absurd hb (by linarith)
    · exact absurd hb (by linarith)
  have u0 : ¬ b < 56 := by linarith
  have u1 : ¬ b < 60 := by linarith
  have u2 : ¬ b < 62 := by linarith
  have u3 : ¬ b < (129:ℚ)/2 := by linarith
  have u4 : ¬ b < (133:ℚ)/2 := by linarith
  have u5 : ¬ b < 68 := by linarith
  have u6 : ¬ b < 71 := by linarith
  have u7 : ¬ b < 73 := by linarith
  have u8 : ¬ b < 75 := by linarith
  have u9 : ¬ b < 77 := by linarith
  refine ⟨?_, ?_, fun hb => ?_, fun hb => ?_⟩
  · norm_num [aviBandMatches, bepaal_avi_niveau, AVI_LEVELS, biltMinCheck, biltMaxCheck,
      List.countP_cons, List.find?, hlo9, u0, u1, u2, u3, u4, u5, u6, u7, u8, u9]
  · norm_num [aviBandMatches, bepaal_avi_niveau, AVI_LEVELS, biltMinCheck, biltMaxCheck,
      List.countP_cons, List.find?, hlo9, u0, u1, u2, u3, u4, u5, u6, u7, u8, u9]
  · exact absurd hb (by linarith)
  · norm_num [aviBandMatches, bepaal_avi_niveau, AVI_LEVELS, biltMinCheck, biltMaxCheck,
      List.countP_cons, List.find?, hlo9, u0, u1, u2, u3, u4, u5, u6, u7, u8, u9]

/-- C2 witness: the boundary bands at the concrete scores 0 and 100. -/
theorem avi_banden_totaal_witness :
    bepaal_avi_niveau 0 = "AVI-M3" ∧ bepaal_avi_niveau 100 = "AVI-Plus" :=
  ⟨(avi_banden_totaal 0).2.2.1 (by norm_num),
   (avi_banden_totaal 100).2.2.2 (by norm_num)⟩

lemma telKlinkerLoop_na_klinker (l : List Char) :
    telKlinkerLoop l true = telKlinkerLoop (l.dropWhile isKlinker) false := by
  induction l with
  | nil => simp [telKlinkerLoop, List.dropWhile_nil]
  | cons c rest ih =>
    by_cases hc : isKlinker c
    · simp [telKlinkerLoop, List.dropWhile_cons, hc, ih]
    · simp [telKlinkerLoop, List.dropWhile_cons, hc]

lemma telKlinkerLoop_eq_runs (l : List Char) :
    telKlinkerLoop l false = aantalKlinkerRuns l := by
  induction l using aantalKlinkerRuns.induct with
  | case1 => simp [telKlinkerLoop, aantalKlinkerRuns]
  | case2 c rest hc ih =>
    rw [aantalKlinkerRuns]
    simp [telKlinkerLoop, hc, telKlinkerLoop_na_klinker, ih]
  | case3 c rest hc ih =>
    rw [aantalKlinkerRuns]
    simp [telKlinkerLoop, hc, ih]

/-- C7 counterexample: `" "` is a non-empty word with zero vowel runs, yet
`tel_lettergrepen` returns 0 for it rather than the 1 the claim requires for non-empty
words without vowels (the source strips surrounding whitespace before its emptiness
test). -/
theorem lettergrepen_witruimte_nul :
    tel_lettergrepen " " = 0 ∧ " " ≠ "" ∧ telKlinkerLoop (pyLower " ".toList) false = 0 := by
  refine ⟨by decide, by decide, by decide⟩

/-- C7 amended: `tel_lettergrepen` first lowercases and strips surrounding whitespace;
on the stripped word it returns the number of maximal runs of vowel characters, except
that a word that is non-empty after stripping but has zero vowel runs returns 1, and a
word that is empty after stripping (in particular the empty string) returns 0; the
examples `"ik" → 1`, `"computer" → 3`, `"" → 0` and consonants-only `→ 1` hold. -/
theorem lettergrepen_spec :
    (∀ woord : String, tel_lettergrepen woord =
      if pyStrip (pyLower woord.toList) = [] then 0
      else max 1 (aantalKlinkerRuns (pyStrip (pyLower woord.toList)))) ∧
    tel_lettergrepen "ik" = 1 ∧ tel_lettergrepen "computer" = 3 ∧
    tel_lettergrepen "" = 0 ∧ tel_lettergrepen "pqrst" = 1 ∧
    (∀ woord : String, pyStrip (pyLower woord.toList) ≠ [] →
      aantalKlinkerRuns (pyStrip (pyLower woord.toList)) = 0 → tel_lettergrepen woord = 1) ∧
    (∀ woord : String, pyStrip (pyLower woord.toList) = [] → tel_lettergrepen woord = 0) := by
  have hoofd : ∀ woord : String, tel_lettergrepen woord =
      if pyStrip (pyLower woord.toList) = [] then 0
      else max 1 (aantalKlinkerRuns (pyStrip (pyLower woord.toList))) := by
    intro woord
    simp only [tel_lettergrepen, telKlinkerLoop_eq_runs]
  refine ⟨hoofd, by decide, by decide, by decide, by decide, ?_, ?_⟩
  · intro woord h1 h2
    rw [hoofd woord, if_neg h1, h2]
    simp
  · intro woord h1
    rw [hoofd woord, if_pos h1]

/-- C7 witness: a word that is non-empty after stripping with zero vowel runs counts 1;
a whitespace-only word counts 0. -/
theorem lettergrepen_spec_witness :
    tel_lettergrepen " qrst " = 1 ∧ tel_lettergrepen "  " = 0 := by
  constructor
  · refine lettergrepen_spec.2.2.2.2.2.1 " qrst " (by decide) ?_
    rw [← telKlinkerLoop_eq_runs]
    decide
  · exact lettergrepen_spec.2.2.2.2.2.2 "  " (by decide)

lemma verdelingUpdate_sleutels_nodup (d : List (ℕ × ℕ)) (k : ℕ)
    (h : (d.map Prod.fst).Nodup) : ((verdelingUpdate d k).map Prod.fst).Nodup := by
  unfold verdelingUpdate
  split_ifs with hk
  · have heq : (d.map (fun p => if p.1 == k then (p.1, p.2 + 1) else p)).map Prod.fst =
        d.map Prod.fst := by
      rw [List.map_map]
      refine List.map_congr_left ?_
      intro p _
      by_cases hp : p.1 = k <;> simp [hp]
    rw [heq]
    exact h
  · have hkni : k ∉ d.map Prod.fst := by
      intro hmem
      rcases List.mem_map.mp hmem with ⟨p, hp, hpk⟩
      exact hk (List.any_eq_true.mpr ⟨p, hp, by simp [hpk]⟩)
    simp only [List.map_append, List.map_cons, List.map_nil]
    rw [List.nodup_append]
    exact ⟨h, List.nodup_singleton k,
      fun a ha hmem => hkni ((List.mem_singleton.mp hmem) ▸ ha)⟩

lemma verdelingUpdate_som (d : List (ℕ × ℕ)) (k : ℕ)
    (h : (d.map Prod.fst).Nodup) :
    ((verdelingUpdate d k).map Prod.snd).sum = (d.map Prod.snd).sum + 1 := by
  unfold verdelingUpdate
  split_ifs with hk
  · induction d with
    | nil => simp at hk
    | cons p rest ih =>
      simp only [List.map_cons, List.nodup_cons] at h
      by_cases hp : (p.1 == k) = true
      · have hrest : ∀ q ∈ rest, ¬ ((q.1 == k) = true) := by
          intro q hq
          simp only [beq_iff_eq] at hp ⊢
          intro hqk
          exact h.1 (List.mem_map.mpr ⟨q, hq, by rw [hqk, hp]⟩)
        have hrid : List.map (fun q : ℕ × ℕ => if q.1 == k then (q.1, q.2 + 1) else q) rest =
            List.map (fun q => q) rest :=
          List.map_congr_left (fun q hq => by simp [hrest q hq])
        simp only [List.map_id'] at hrid
        have hmap : (p :: rest).map (fun q : ℕ × ℕ => if q.1 == k then (q.1, q.2 + 1) else q) =
            (p.1, p.2 + 1) :: rest := by
          simp only [List.map_cons, hp, if_pos]
          rw [hrid]
        rw [hmap]
        simp only [List.map_cons, List.sum_cons]
        omega
      · have hk' : rest.any (fun q => q.1 == k) := by
          rcases List.any_eq_true.mp hk with ⟨q, hq, hqk⟩
          rcases List.mem_cons.mp hq with rfl | hq'
          · exact absurd hqk hp
          · exact List.any_eq_true.mpr ⟨q, hq', hqk⟩
        have hres := ih h.2 hk'
        simp only [List.map_cons, hp, if_neg, List.sum_cons]
        simp only [Bool.not_eq_true] at hp
        simp only [hp, Bool.false_eq_true, if_false, List.map_cons, List.sum_cons] at hres ⊢
        omega
  · simp

lemma lettergreepVerdeling_som_aux (tokens : List String) (d : List (ℕ × ℕ))
    (h : (d.map Prod.fst).Nodup) :
    (((tokens.foldl (fun verdeling woord =>
        verdelingUpdate verdeling (tel_lettergrepen woord)) d)).map Prod.snd).sum =
      (d.map Prod.snd).sum + tokens.length := by
  induction tokens generalizing d with
  | nil => simp
  | cons w rest ih =>
    simp only [List.foldl_cons, List.length_cons]
    rw [ih _ (verdelingUpdate_sleutels_nodup d _ h),
      verdelingUpdate_som d _ h]
    omega

lemma lettergreepVerdeling_som (tokens : List String) :
    ((lettergreepVerdeling tokens).map Prod.snd).sum = tokens.length := by
  have := lettergreepVerdeling_som_aux tokens [] (by simp)
  simpa [lettergreepVerdeling] using this

/-- C10: whenever `analyse_avi` returns a result, the syllable histogram covers every
token with repeats counted: its values sum to `totaal_woorden`, which is the number of
tokens of the text and is at least 10. -/
theorem histogram_dekt_alle_tokens (woordenlijst : Finset String) (tekst : String)
    (target : Option String) (r : AVIResult)
    (h : analyse_avi woordenlijst tekst target = some r) :
    ((r.lettergreep_verdeling.map Prod.snd).sum = r.totaal_woorden) ∧
    r.totaal_woorden = (tokenize tekst).length ∧ 10 ≤ r.totaal_woorden := by
  unfold analyse_avi at h
  split_ifs at h with hc
  obtain rfl : aviResultaat woordenlijst (tokenize tekst) (split_sentences tekst) target = r :=
    Option.some.inj h
  push_neg at hc
  have htot : (aviResultaat woordenlijst (tokenize tekst) (split_sentences tekst)
      target).totaal_woorden = (tokenize tekst).length := rfl
  have hverd : (aviResultaat woordenlijst (tokenize tekst) (split_sentences tekst)
      target).lettergreep_verdeling = lettergreepVerdeling (tokenize tekst) := rfl
  refine ⟨?_, htot, ?_⟩
  · rw [hverd, htot]
    exact lettergreepVerdeling_som _
  · rw [htot]
    omega

lemma voorbeeld_tokenize : tokenize voorbeeldTekst = voorbeeldTokens := by decide

lemma voorbeeld_zinnen : split_sentences voorbeeldTekst = [voorbeeldTekst] := by decide

lemma voorbeeld_gem_woordlengte : gemWoordlengte voorbeeldTokens = 37/10 := by
  have hsum : (voorbeeldTokens.map String.length).sum = 74 := by decide
  have hlen : voorbeeldTokens.length = 20 := by decide
  rw [gemWoordlengte, hsum, hlen]
  norm_num

lemma voorbeeld_gem_zinslengte :
    gemZinslengte voorbeeldTokens [voorbeeldTekst] = 20 := by
  have hz : zinsLengtes voorbeeldTokens [voorbeeldTekst] = [20] := by
    rw [zinsLengtes, if_pos (by simp)]
    simp only [List.map_cons, List.map_nil, voorbeeld_tokenize]
    decide
  rw [gemZinslengte, hz]
  norm_num

lemma analyse_avi_voorbeeld :
    analyse_avi ∅ voorbeeldTekst none = some aviVoorbeeldResultaat := by
  unfold analyse_avi
  rw [voorbeeld_tokenize, voorbeeld_zinnen, if_neg (by decide)]
  refine congrArg some ?_
  have hpct : pctFrequentVan ∅ voorbeeldTokens 70 = 70 := by simp [pctFrequentVan]
  have hbilt : berekenBilt 70 (37/10) = 59041/1000 := by
    norm_num [berekenBilt, BILT_INTERCEPT, BILT_COEF_FREQ, BILT_COEF_WLEN]
  have hniveau : bepaal_avi_niveau (59041/1000) = "AVI-E3" := by
    norm_num [bepaal_avi_niveau, AVI_LEVELS, biltMinCheck, biltMaxCheck, List.find?]
  have hlen : voorbeeldTokens.length = 20 := by decide
  have hverd : lettergreepVerdeling voorbeeldTokens = [(1, 20)] := by decide
  simp only [aviResultaat, aviVoorbeeldResultaat, hpct, voorbeeld_gem_woordlengte,
    hbilt, hniveau, voorbeeld_gem_zinslengte, hlen, hverd, AVIResult.mk.injEq]
  simp [aviTargetChecks]

lemma analyse_ref_voorbeeld :
    analyse_ref ∅ voorbeeldTekst = some refVoorbeeldResultaat := by
  unfold analyse_ref
  rw [voorbeeld_tokenize, voorbeeld_zinnen, if_neg (by decide)]
  refine congrArg some ?_
  have hpct : pctFrequentVan ∅ voorbeeldTokens 65 = 65 := by simp [pctFrequentVan]
  have hz : zinsLengtes voorbeeldTokens [voorbeeldTekst] = [20] := by
    rw [zinsLengtes, if_pos (by simp)]
    simp only [List.map_cons, List.map_nil, voorbeeld_tokenize]
    decide
  have hmark : (markerTypes voorbeeldTokens).card = 0 := by decide
  have hscore : berekenRefScore 0 0 (37/10) = -7947/20000 := by
    norm_num [berekenRefScore, REF_INTERCEPT, REF_COEF_LONG_SENT, REF_COEF_MARKER_DIV,
      REF_COEF_WL]
  have hlsd : ((([20] : List ℕ).countP (fun l => decide (l > 20)) : ℚ) /
      (([20] : List ℕ).length : ℚ)) = 0 := by
    norm_num
  have hclass : bepaalRefNiveau (-7947/20000) = ("1F", "Hoog") := by
    norm_num [bepaalRefNiveau, REF_CUTOFF_1F_2F, REF_CUTOFF_2F_3F]
  have hlen : voorbeeldTokens.length = 20 := by decide
  simp only [refResultaat, refVoorbeeldResultaat, hpct, voorbeeld_gem_woordlengte, hz,
    voorbeeld_gem_zinslengte, hmark, hlsd, hlen, REFResult.mk.injEq]
  rw [show ((0:ℚ) * 100) = 0 by norm_num, hscore, hclass]
  simp

lemma mem_foldl_markers (cats : List (String × List String)) (acc : Finset String)
    (t x : String) :
    (x ∈ cats.foldl (fun a p => if t ∈ p.2 then insert p.1 a else a) acc) ↔
      x ∈ acc ∨ ∃ p ∈ cats, p.1 = x ∧ t ∈ p.2 := by
  induction cats generalizing acc with
  | nil => simp
  | cons q rest ih =>
    simp only [List.foldl_cons]
    rw [ih]
    by_cases ht : t ∈ q.2
    · simp only [ht, if_pos, Finset.mem_insert, List.mem_cons]
      constructor
      · rintro ((rfl | hx) | ⟨p, hp, rfl, htp⟩)
        · exact Or.inr ⟨q, Or.inl rfl, rfl, ht⟩
        · exact Or.inl hx
        · exact Or.inr ⟨p, Or.inr hp, rfl, htp⟩
      · rintro (hx | ⟨p, (rfl | hp), rfl, htp⟩)
        · exact Or.inl (Or.inr hx)
        · exact Or.inl (Or.inl rfl)
        · exact Or.inr ⟨p, hp, rfl, htp⟩
    · simp only [ht, if_neg, List.mem_cons, Bool.false_eq_true]
      constructor
      · rintro (hx | ⟨p, hp, rfl, htp⟩)
        · exact Or.inl hx
        · exact Or.inr ⟨p, Or.inr hp, rfl, htp⟩
      · rintro (hx | ⟨p, (rfl | hp), rfl, htp⟩)
        · exact Or.inl hx
        · exact absurd htp ht
        · exact Or.inr ⟨p, hp, rfl, htp⟩

lemma mem_markerTypes (tokens : List String) (x : String) :
    (x ∈ markerTypes tokens) ↔
      ∃ p ∈ DISCOURSE_MARKERS, p.1 = x ∧ ∃ t ∈ tokens, t ∈ p.2 := by
  suffices h : ∀ acc : Finset String,
      (x ∈ tokens.foldl (fun acc t => DISCOURSE_MARKERS.foldl
        (fun acc2 p => if t ∈ p.2 then insert p.1 acc2 else acc2) acc) acc) ↔
        x ∈ acc ∨ ∃ p ∈ DISCOURSE_MARKERS, p.1 = x ∧ ∃ t ∈ tokens, t ∈ p.2 by
    simpa [markerTypes] using h ∅
  induction tokens with
  | nil => simp
  | cons t rest ih =>
    intro acc
    simp only [List.foldl_cons]
    rw [ih, mem_foldl_markers]
    constructor
    · rintro ((hx | ⟨p, hp, rfl, htp⟩) | ⟨p, hp, rfl, t', ht', htp⟩)
      · exact Or.inl hx
      · exact Or.inr ⟨p, hp, rfl, t, List.mem_cons_self t rest, htp⟩
      · exact Or.inr ⟨p, hp, rfl, t', List.mem_cons_of_mem t ht', htp⟩
    · rintro (hx | ⟨p, hp, rfl, t', ht', htp⟩)
      · exact Or.inl (Or.inl hx)
      · rcases List.mem_cons.mp ht' with rfl | ht''
        · exact Or.inl (Or.inr ⟨p, hp, rfl, htp⟩)
        · exact Or.inr ⟨p, hp, rfl, t', ht'', htp⟩

lemma markerTypes_eq_filter (tokens : List String) :
    markerTypes tokens =
      ((DISCOURSE_MARKERS.filter (fun p => tokens.any (fun t => decide (t ∈ p.2)))).map
        Prod.fst).toFinset := by
  ext x
  rw [mem_markerTypes]
  simp only [List.mem_toFinset, List.mem_map, List.mem_filter, List.any_eq_true,
    decide_eq_true_eq]
  constructor
  · rintro ⟨p, hp, rfl, t, ht, htp⟩
    exact ⟨p, ⟨hp, t, ht, htp⟩, rfl⟩
  · rintro ⟨p, ⟨hp, t, ht, htp⟩, rfl⟩
    exact ⟨p, hp, rfl, t, ht, htp⟩

lemma markerTypes_card (tokens : List String) :
    (markerTypes tokens).card = aantalMarkerCategorieen tokens := by
  rw [markerTypes_eq_filter, aantalMarkerCategorieen, List.countP_eq_length_filter,
    List.toFinset_card_of_nodup, List.length_map]
  exact List.Nodup.sublist (List.Sublist.map Prod.fst (List.filter_sublist _))
    (by decide : ((DISCOURSE_MARKERS.map Prod.fst).Nodup))

/-- C8: `marker_diversity` of every `analyse_ref` result equals the number of distinct
marker categories with at least one exactly-matching token, hence lies in 0–5; the
example text containing only the markers `maar` and `omdat` scores diversity 2. -/
theorem marker_diversiteit_spec :
    (∀ (woordenlijst : Finset String) (tekst : String) (r : REFResult),
      analyse_ref woordenlijst tekst = some r →
      r.marker_diversity = aantalMarkerCategorieen (tokenize tekst) ∧
      r.marker_diversity ≤ 5) ∧
    Option.map REFResult.marker_diversity (analyse_ref ∅ markerVoorbeeldTekst) =
      some 2 := by
  constructor
  · intro W tekst r h
    unfold analyse_ref at h
    split_ifs at h with hc
    obtain rfl : refResultaat W (tokenize tekst) (split_sentences tekst) = r :=
      Option.some.inj h
    have hmd : (refResultaat W (tokenize tekst) (split_sentences tekst)).marker_diversity =
        (markerTypes (tokenize tekst)).card := rfl
    rw [hmd, markerTypes_card]
    refine ⟨rfl, ?_⟩
    calc aantalMarkerCategorieen (tokenize tekst)
        ≤ DISCOURSE_MARKERS.length := List.countP_le_length _
      _ = 5 := by decide
  · have ht : tokenize markerVoorbeeldTekst = markerVoorbeeldTokens := by decide
    unfold analyse_ref
    rw [ht, if_neg (by decide)]
    have hmd : (refResultaat ∅ markerVoorbeeldTokens
        (split_sentences markerVoorbeeldTekst)).marker_diversity =
        (markerTypes markerVoorbeeldTokens).card := rfl
    simp only [Option.map_some', hmd]
    rw [show (markerTypes markerVoorbeeldTokens).card = 2 from by decide]

/-- C8 witness: the diversity law at a concrete analysed text. -/
theorem marker_diversiteit_spec_witness :
    refVoorbeeldResultaat.marker_diversity =
      aantalMarkerCategorieen (tokenize voorbeeldTekst) ∧
    refVoorbeeldResultaat.marker_diversity ≤ 5 :=
  marker_diversiteit_spec.1 ∅ voorbeeldTekst refVoorbeeldResultaat analyse_ref_voorbeeld

/-- C10 witness: the histogram invariant at a concrete analysed text. -/
theorem histogram_dekt_alle_tokens_witness :
    ((aviVoorbeeldResultaat.lettergreep_verdeling.map Prod.snd).sum =
      aviVoorbeeldResultaat.totaal_woorden) ∧
    aviVoorbeeldResultaat.totaal_woorden = (tokenize voorbeeldTekst).length ∧
    10 ≤ aviVoorbeeldResultaat.totaal_woorden :=
  histogram_dekt_alle_tokens ∅ voorbeeldTekst none aviVoorbeeldResultaat
    analyse_avi_voorbeeld

/-- C4: classification of every `analyse_ref` score: below 1.25 band 1F with confidence
high exactly below 1.0; from 1.25 up to (excl.) 2.35 band 2F with confidence high
exactly on `[1.5, 2.1]` else the boundary label; from 2.35 band 3F with confidence high
exactly above 2.7; boundary scores 1.24/1.25/2.35 land in 1F/2F/3F; and the result
fields of `analyse_ref` are exactly this classification of its score. -/
theorem ref_classificatie_spec :
    (∀ s : ℚ, s < 1.25 → (bepaalRefNiveau s).1 = "1F" ∧
      (bepaalRefNiveau s).2 = (if s < 1.0 then "Hoog" else "Gemiddeld")) ∧
    (∀ s : ℚ, 1.25 ≤ s → s < 2.35 → (bepaalRefNiveau s).1 = "2F" ∧
      (bepaalRefNiveau s).2 =
        (if 1.5 ≤ s ∧ s ≤ 2.1 then "Hoog" else "Gemiddeld (grensgebied)")) ∧
    (∀ s : ℚ, 2.35 ≤ s → (bepaalRefNiveau s).1 = "3F" ∧
      (bepaalRefNiveau s).2 = (if 2.7 < s then "Hoog" else "Gemiddeld")) ∧
    (bepaalRefNiveau 1.24).1 = "1F" ∧ (bepaalRefNiveau 1.25).1 = "2F" ∧
    (bepaalRefNiveau 2.35).1 = "3F" ∧
    ("Hoog" ≠ "Gemiddeld" ∧ "Hoog" ≠ "Gemiddeld (grensgebied)") ∧
    (∀ (woordenlijst : Finset String) (tekst : String) (r : REFResult),
      analyse_ref woordenlijst tekst = some r →
      r.niveau = (bepaalRefNiveau r.score).1 ∧
      r.confidence = (bepaalRefNiveau r.score).2) := by
  refine ⟨?_, ?_, ?_, ?_, ?_, ?_, ⟨by decide, by decide⟩, ?_⟩
  · intro s h
    simp only [bepaalRefNiveau, REF_CUTOFF_1F_2F]
    rw [if_pos h]
    exact ⟨rfl, rfl⟩
  · intro s h1 h2
    simp only [bepaalRefNiveau, REF_CUTOFF_1F_2F, REF_CUTOFF_2F_3F]
    rw [if_neg (not_lt.mpr h1), if_pos h2]
    exact ⟨rfl, rfl⟩
  · intro s h
    simp only [bepaalRefNiveau, REF_CUTOFF_1F_2F, REF_CUTOFF_2F_3F]
    rw [if_neg (not_lt.mpr (by linarith)), if_neg (not_lt.mpr h)]
    exact ⟨rfl, rfl⟩
  · norm_num [bepaalRefNiveau, REF_CUTOFF_1F_2F]
  · norm_num [bepaalRefNiveau, REF_CUTOFF_1F_2F, REF_CUTOFF_2F_3F]
  · norm_num [bepaalRefNiveau, REF_CUTOFF_1F_2F, REF_CUTOFF_2F_3F]
  · intro W tekst r h
    unfold analyse_ref at h
    split_ifs at h with hc
    obtain rfl : refResultaat W (tokenize tekst) (split_sentences tekst) = r :=
      Option.some.inj h
    exact ⟨rfl, rfl⟩

/-- C4 witness: the classification at score 0.9 and at a concrete analysed text. -/
theorem ref_classificatie_spec_witness :
    (bepaalRefNiveau 0.9).1 = "1F" ∧
    refVoorbeeldResultaat.niveau = (bepaalRefNiveau refVoorbeeldResultaat.score).1 :=
  ⟨(ref_classificatie_spec.1 0.9 (by norm_num)).1,
   (ref_classificatie_spec.2.2.2.2.2.2.2 ∅ voorbeeldTekst refVoorbeeldResultaat
      analyse_ref_voorbeeld).1⟩

/-- C9: with an empty word list both scorers still produce a result exactly as often as
with any word list; the frequent-word percentage is then the constant 70 (`analyse_avi`)
resp. 65 (`analyse_ref`) and every other feature — and the score formula applied to the
features — is computed exactly as in the non-degraded case. -/
theorem lege_woordenlijst_terugval (woordenlijst : Finset String) (tekst : String)
    (target : Option String) :
    ((analyse_avi ∅ tekst target).isSome ↔ (analyse_avi woordenlijst tekst target).isSome) ∧
    (∀ r : AVIResult, analyse_avi ∅ tekst target = some r →
      r.pct_frequent = 70 ∧ r.bilt = berekenBilt 70 r.gem_woordlengte ∧
      r.niveau = bepaal_avi_niveau r.bilt) ∧
    (∀ r r' : AVIResult, analyse_avi ∅ tekst target = some r →
      analyse_avi woordenlijst tekst target = some r' →
      r.gem_woordlengte = r'.gem_woordlengte ∧ r.gem_zinslengte = r'.gem_zinslengte ∧
      r.totaal_woorden = r'.totaal_woorden ∧
      r.lettergreep_verdeling = r'.lettergreep_verdeling ∧
      r.te_lange_woorden = r'.te_lange_woorden ∧
      r.te_lange_zinnen = r'.te_lange_zinnen) ∧
    ((analyse_ref ∅ tekst).isSome ↔ (analyse_ref woordenlijst tekst).isSome) ∧
    (∀ r : REFResult, analyse_ref ∅ tekst = some r →
      r.pct_frequent = 65 ∧
      r.score = berekenRefScore (r.long_sent_deel * 100) r.marker_diversity
        r.gem_woordlengte) ∧
    (∀ r r' : REFResult, analyse_ref ∅ tekst = some r →
      analyse_ref woordenlijst tekst = some r' →
      r.gem_woordlengte = r'.gem_woordlengte ∧ r.gem_zinslengte = r'.gem_zinslengte ∧
      r.totaal_woorden = r'.totaal_woorden ∧ r.long_sent_deel = r'.long_sent_deel ∧
      r.marker_diversity = r'.marker_diversity ∧ r.score = r'.score ∧
      r.niveau = r'.niveau ∧ r.confidence = r'.confidence) := by
  have hpct70 : pctFrequentVan ∅ (tokenize tekst) 70 = 70 := by simp [pctFrequentVan]
  have hpct65 : pctFrequentVan ∅ (tokenize tekst) 65 = 65 := by simp [pctFrequentVan]
  refine ⟨?_, ?_, ?_, ?_, ?_, ?_⟩
  · unfold analyse_avi
    split_ifs <;> simp
  · intro r h
    unfold analyse_avi at h
    split_ifs at h with hc
    obtain rfl : aviResultaat ∅ (tokenize tekst) (split_sentences tekst) target = r :=
      Option.some.inj h
    refine ⟨hpct70, ?_, rfl⟩
    show berekenBilt (pctFrequentVan ∅ (tokenize tekst) 70) (gemWoordlengte (tokenize tekst)) =
      berekenBilt 70 (gemWoordlengte (tokenize tekst))
    rw [hpct70]
  · intro r r' h h'
    unfold analyse_avi at h h'
    split_ifs at h h' with hc
    obtain rfl : aviResultaat ∅ (tokenize tekst) (split_sentences tekst) target = r :=
      Option.some.inj h
    obtain rfl : aviResultaat woordenlijst (tokenize tekst) (split_sentences tekst)
        target = r' := Option.some.inj h'
    exact ⟨rfl, rfl, rfl, rfl, rfl, rfl⟩
  · unfold analyse_ref
    split_ifs <;> simp
  · intro r h
    unfold analyse_ref at h
    split_ifs at h with hc
    obtain rfl : refResultaat ∅ (tokenize tekst) (split_sentences tekst) = r :=
      Option.some.inj h
    exact ⟨hpct65, rfl⟩
  · intro r r' h h'
    unfold analyse_ref at h h'
    split_ifs at h h' with hc
    obtain rfl : refResultaat ∅ (tokenize tekst) (split_sentences tekst) = r :=
      Option.some.inj h
    obtain rfl : refResultaat woordenlijst (tokenize tekst) (split_sentences tekst) = r' :=
      Option.some.inj h'
    exact ⟨rfl, rfl, rfl, rfl, rfl, rfl, rfl, rfl⟩

/-- C9 witness: the fallback constants at a concrete analysed text. -/
theorem lege_woordenlijst_terugval_witness :
    aviVoorbeeldResultaat.pct_frequent = 70 ∧ refVoorbeeldResultaat.pct_frequent = 65 :=
  ⟨((lege_woordenlijst_terugval ∅ voorbeeldTekst none).2.1 aviVoorbeeldResultaat
      analyse_avi_voorbeeld).1,
   ((lege_woordenlijst_terugval ∅ voorbeeldTekst none).2.2.2.2.1 refVoorbeeldResultaat
      analyse_ref_voorbeeld).1⟩

lemma ref_info_1F : REF_NIVEAU_INFO.lookup "1F" =
    some ⟨"Einde basisonderwijs / vmbo-bb", 4.73, 10.9, 7⟩ := rfl

lemma ref_info_2F : REF_NIVEAU_INFO.lookup "2F" =
    some ⟨"Einde vmbo / mbo-2,3", 4.91, 14.4, 15⟩ := rfl

lemma ref_info_3F : REF_NIVEAU_INFO.lookup "3F" =
    some ⟨"Einde havo / mbo-4", 5.27, 17.4, 31⟩ := rfl

lemma ref_order_1F : REF_NIVEAU_ORDER.lookup "1F" = some 1 := rfl

lemma ref_order_2F : REF_NIVEAU_ORDER.lookup "2F" = some 2 := rfl

lemma ref_order_3F : REF_NIVEAU_ORDER.lookup "3F" = some 3 := rfl

/-- C5 counterexample: a comprehension result whose features sit exactly on the 1F
reference profile (word length 4.73, sentence length 10.9, long-sentence share 7%,
marker diversity 4) shows no gap towards target `1F`, yet the suggestion list is the
non-empty `[tipVerrijking]` — the unconditional closing tip is always emitted, so "empty
when no gap" fails. -/
theorem suggesties_zonder_gat_niet_leeg :
    get_ref_suggesties ⟨"1F", 0.5, "Hoog", 30, 4.73, 10.9, 65, 7/100, 4⟩ "1F" =
      some [REFSuggestie.tipVerrijking] ∧
    some [REFSuggestie.tipVerrijking] ≠ some ([] : List REFSuggestie) := by
  refine ⟨?_, by decide⟩
  norm_num [get_ref_suggesties, refVerrijkAdvies, ref_info_1F, ref_order_1F]

lemma aviWoordtypenDeel_geldig :
    ∀ target ∈ AVI_LEVELS.map AVILevel.niveau,
      aviWoordtypenDeel target (AVI_KENMERKEN.lookup target) ≠ [] := by decide

/-- C5 amended: for every target band that occurs in the band tables the suggestion
operations return a value (`get_avi_suggesties` is total; `get_ref_suggesties` needs
`target` and the result's band among 1F/2F/3F, otherwise the source raises `KeyError`),
but the returned sequence is never empty — even without any feature gap the
unconditional informational lines (the `woordtypen` description resp. the closing tip)
are emitted. -/
theorem suggesties_geldig_nooit_leeg :
    (∀ (result : AVIResult) (target : String),
      target ∈ AVI_LEVELS.map AVILevel.niveau →
      get_avi_suggesties result target ≠ []) ∧
    (∀ (result : REFResult) (target : String),
      target ∈ ["1F", "2F", "3F"] → result.niveau ∈ ["1F", "2F", "3F"] →
      ∃ l, get_ref_suggesties result target = some l ∧ l ≠ []) := by
  constructor
  · intro result target ht hcontra
    simp only [get_avi_suggesties, List.append_eq_nil] at hcontra
    exact aviWoordtypenDeel_geldig target ht hcontra.2
  · intro result target ht hn
    simp only [List.mem_cons, List.not_mem_nil, or_false] at ht hn
    rcases ht with rfl | rfl | rfl <;> rcases hn with h | h | h <;>
      · simp only [get_ref_suggesties, h, ref_info_1F, ref_info_2F, ref_info_3F,
          ref_order_1F, ref_order_2F, ref_order_3F]
        refine ⟨_, rfl, ?_⟩
        split_ifs <;>
          simp [refVereenvoudigAdvies, refVerrijkAdvies, List.append_eq_nil]

/-- C5 witness: non-empty suggestion lists at a concrete result and valid targets. -/
theorem suggesties_geldig_nooit_leeg_witness :
    get_avi_suggesties aviVoorbeeldResultaat "AVI-M3" ≠ [] ∧
    get_ref_suggesties refVoorbeeldResultaat "1F" ≠ none ∧
    get_ref_suggesties refVoorbeeldResultaat "1F" ≠ some [] := by
  obtain ⟨l, hl, hne⟩ := suggesties_geldig_nooit_leeg.2 refVoorbeeldResultaat "1F"
    (by decide) (by decide)
  refine ⟨suggesties_geldig_nooit_leeg.1 aviVoorbeeldResultaat "AVI-M3" (by decide),
    ?_, ?_⟩
  · rw [hl]
    simp
  · rw [hl]
    simp [hne]

lemma mem_ite_lijst {α : Type} {c : Prop} [Decidable c] {x s : α}
    (hs : s ∈ (if c then [x] else [])) : s = x := by
  split_ifs at hs <;> simp_all

lemma aviVereenvoudigAdvies_richting (result : AVIResult) (specs : AVILevel)
    (tk : Option AVIKenmerken) :
    ∀ s ∈ aviVereenvoudigAdvies result specs tk, aviRichting s = Richting.vereenvoudig := by
  intro s hs
  rcases tk with _ | k
  · simp only [aviVereenvoudigAdvies, Option.none_bind, List.mem_append,
      List.not_mem_nil, or_false] at hs
    rcases hs with hs | hs <;> rw [mem_ite_lijst hs] <;> rfl
  · simp only [aviVereenvoudigAdvies, Option.some_bind, List.mem_append] at hs
    rcases hml : k.max_lettergrepen with _ | n <;> simp only [hml] at hs <;>
    rcases hmz : k.max_zinslengte with _ | m <;> simp only [hmz] at hs <;>
    rcases hv : k.verboden with _ | v <;> simp only [hv] at hs <;>
    rcases hs with ((((hs | hs) | hs) | hs) | hs) <;>
      first
        | exact absurd hs (List.not_mem_nil _)
        | (rw [mem_ite_lijst hs]; rfl)

lemma aviVerrijkAdvies_richting (result : AVIResult) (specs : AVILevel)
    (tk : Option AVIKenmerken) :
    ∀ s ∈ aviVerrijkAdvies result specs tk, aviRichting s = Richting.verrijk := by
  intro s hs
  rcases tk with _ | k <;>
    simp only [aviVerrijkAdvies, List.mem_append] at hs <;>
    rcases hs with ((hs | hs) | hs) <;>
      first
        | exact absurd hs (List.not_mem_nil _)
        | (rw [mem_ite_lijst hs]; rfl)

lemma aviWoordtypenDeel_richting (target : String) (tk : Option AVIKenmerken) :
    ∀ s ∈ aviWoordtypenDeel target tk, aviRichting s = Richting.neutraal := by
  intro s hs
  rcases tk with _ | k <;> simp only [aviWoordtypenDeel] at hs
  · exact absurd hs (List.not_mem_nil _)
  · rw [mem_ite_lijst hs]
    rfl

lemma refVereenvoudigAdvies_richting (result : REFResult) (info : RefNiveauInfo) :
    ∀ s ∈ refVereenvoudigAdvies result info, refRichting s = Richting.vereenvoudig := by
  intro s hs
  simp only [refVereenvoudigAdvies, List.mem_append] at hs
  rcases hs with (((hs | hs) | hs) | hs) <;>
    first
      | exact absurd hs (List.not_mem_nil _)
      | (rw [mem_ite_lijst hs]; rfl)
      | (rw [List.mem_singleton.mp hs]; rfl)

lemma refVerrijkAdvies_richting (result : REFResult) (info : RefNiveauInfo) :
    ∀ s ∈ refVerrijkAdvies result info, refRichting s = Richting.verrijk := by
  intro s hs
  simp only [refVerrijkAdvies, List.mem_append] at hs
  rcases hs with ((((hs | hs) | hs) | hs) | hs) <;>
    first
      | exact absurd hs (List.not_mem_nil _)
      | (rw [mem_ite_lijst hs]; rfl)
      | (rw [List.mem_singleton.mp hs]; rfl)

/-- C6 counterexample: with equal ordinals (result band 2F, target 2F) the engine emits
the same enrichment advice (`langereWoorden`, direction enrich) as for a strictly lower
current band (result 1F, target 2F): there is no separate refine-in-place direction for
equal ordinals. -/
theorem richting_gelijke_ordinalen_weerlegging :
    get_ref_suggesties ⟨"2F", 2, "Hoog", 30, 4, 14.4, 65, 3/20, 4⟩ "2F" =
      some [REFSuggestie.langereWoorden 4 4.91, REFSuggestie.tipVerrijking] ∧
    get_ref_suggesties ⟨"2F", 2, "Hoog", 30, 4, 14.4, 65, 3/20, 4⟩ "2F" =
      get_ref_suggesties ⟨"1F", 2, "Hoog", 30, 4, 14.4, 65, 3/20, 4⟩ "2F" ∧
    refRichting (REFSuggestie.langereWoorden 4 4.91) = Richting.verrijk := by
  have h1 : get_ref_suggesties ⟨"2F", 2, "Hoog", 30, 4, 14.4, 65, 3/20, 4⟩ "2F" =
      some [REFSuggestie.langereWoorden 4 4.91, REFSuggestie.tipVerrijking] := by
    norm_num [get_ref_suggesties, refVerrijkAdvies, ref_info_2F, ref_order_1F, ref_order_2F]
  have h2 : get_ref_suggesties ⟨"1F", 2, "Hoog", 30, 4, 14.4, 65, 3/20, 4⟩ "2F" =
      some [REFSuggestie.langereWoorden 4 4.91, REFSuggestie.tipVerrijking] := by
    norm_num [get_ref_suggesties, refVerrijkAdvies, ref_info_2F, ref_order_1F, ref_order_2F]
  exact ⟨h1, h1.trans h2.symm, rfl⟩

/-- C6 amended: the remediation direction is decided by comparing ordinal positions, but
with only two outcomes: a target ordinal strictly below the current one yields
simplification advice only, while a target ordinal above or equal yields enrichment
advice only (plus, for the technical scale, the neutral word-type information line);
there is no separate refine-in-place direction for equal ordinals. -/
theorem suggestie_richting_spec :
    (∀ (result : AVIResult) (target : String),
      (aviNiveauIdx target < aviNiveauIdx result.niveau →
        ∀ s ∈ get_avi_suggesties result target, aviRichting s ≠ Richting.verrijk) ∧
      (aviNiveauIdx result.niveau ≤ aviNiveauIdx target →
        ∀ s ∈ get_avi_suggesties result target, aviRichting s ≠ Richting.vereenvoudig)) ∧
    (∀ (result : REFResult) (target : String) (target_ord huidig_ord : ℕ)
      (l : List REFSuggestie),
      REF_NIVEAU_ORDER.lookup target = some target_ord →
      REF_NIVEAU_ORDER.lookup result.niveau = some huidig_ord →
      get_ref_suggesties result target = some l →
      (target_ord < huidig_ord → ∀ s ∈ l, refRichting s ≠ Richting.verrijk) ∧
      (huidig_ord ≤ target_ord → ∀ s ∈ l, refRichting s ≠ Richting.vereenvoudig)) := by
  constructor
  · intro result target
    constructor
    · intro hlt s hs
      simp only [get_avi_suggesties, List.mem_append] at hs
      rw [if_pos hlt] at hs
      rcases hs with hs | hs
      · rw [aviVereenvoudigAdvies_richting _ _ _ s hs]
        decide
      · rw [aviWoordtypenDeel_richting _ _ s hs]
        decide
    · intro hle s hs
      simp only [get_avi_suggesties, List.mem_append] at hs
      rw [if_neg (not_lt.mpr hle)] at hs
      rcases hs with hs | hs
      · rw [aviVerrijkAdvies_richting _ _ _ s hs]
        decide
      · rw [aviWoordtypenDeel_richting _ _ s hs]
        decide
  · intro result target target_ord huidig_ord l hto hho hl
    unfold get_ref_suggesties at hl
    split at hl
    case _ h1 h2 h3 =>
      rename_i info tord hord
      obtain rfl : target_ord = tord := Option.some.inj (hto.symm.trans h2)
      obtain rfl : huidig_ord = hord := Option.some.inj (hho.symm.trans h3)
      obtain rfl := Option.some.inj hl
      constructor
      · intro hlt s hs
        rw [if_pos hlt] at hs
        rw [refVereenvoudigAdvies_richting _ _ s hs]
        decide
      · intro hle s hs
        rw [if_neg (not_lt.mpr hle)] at hs
        rw [refVerrijkAdvies_richting _ _ s hs]
        decide
    case _ =>
      exact absurd hl (by simp)

/-- C6 witness: the direction law at a concrete result, simplify target and enrich
target. -/
theorem suggestie_richting_spec_witness :
    aviRichting (AVISuggestie.kortereWoorden (37/10) 3.3) ≠ Richting.verrijk ∧
    refRichting REFSuggestie.tipVerrijking ≠ Richting.vereenvoudig := by
  constructor
  · have hi1 : aviNiveauIdx "AVI-E3" = 1 := by decide
    have hi0 : aviNiveauIdx "AVI-M3" = 0 := by decide
    have hspec : AVI_LEVELS.getD 0 ⟨"", none, none, 0, 0, 0, none, none, 0⟩ =
        ⟨"AVI-M3", none, some 56.0, 51, 91, 3.3, some 1, some 6, 6.9⟩ := rfl
    have hmem : AVISuggestie.kortereWoorden (37/10) 3.3 ∈
        get_avi_suggesties aviVoorbeeldResultaat "AVI-M3" := by
      simp only [get_avi_suggesties, aviVoorbeeldResultaat, hi0, hi1, hspec]
      rw [if_pos (by norm_num : (0:ℕ) < 1)]
      refine List.mem_append_left _ ?_
      simp only [aviVereenvoudigAdvies]
      refine List.mem_append_left _ (List.mem_append_left _ (List.mem_append_left _
        (List.mem_append_left _ ?_)))
      rw [if_pos (by norm_num)]
      exact List.mem_singleton_self _
    exact (suggestie_richting_spec.1 aviVoorbeeldResultaat "AVI-M3").1
      (by rw [hi0]; rw [show aviVoorbeeldResultaat.niveau = "AVI-E3" from rfl, hi1]; omega)
      _ hmem
  · have hsugg : get_ref_suggesties ⟨"1F", 0, "x", 0, 4.73, 10.9, 0, 7/100, 4⟩ "1F" =
        some [REFSuggestie.tipVerrijking] := by
      norm_num [get_ref_suggesties, refVerrijkAdvies, ref_info_1F, ref_order_1F]
    exact (suggestie_richting_spec.2 ⟨"1F", 0, "x", 0, 4.73, 10.9, 0, 7/100, 4⟩ "1F" 1 1
        [REFSuggestie.tipVerrijking] ref_order_1F rfl hsugg).2 (le_refl 1)
      REFSuggestie.tipVerrijking (List.mem_singleton_self _)
